import Mathlib

/-!
Shallow embedding of the coding-challenge pipeline implemented in
`functions/src/index.ts`: the JS string helpers, repository-name slugging,
the prompt builders of the two HTTP handlers, the multipart extractor
state machine, the git provisioning sequence with its identity retry, and
the request/response behaviour of the handlers.  External effects (the
completion provider, the git transport) are passed in as explicit
environments; everything observable (responses, invocation traces) is
returned as data.
-/

set_option maxRecDepth 40000

namespace Pipeline

/-- ASCII whitespace, modelling the character class used by the JS regex
whitespace class and by JS string trim on the ASCII range. -/
def isWS (c : Char) : Bool :=
  c = ' ' || c = '\t' || c = '\n' || c = '\r' || c = '\u000b' || c = '\u000c'

/-- JS toLowerCase restricted to the ASCII letters (the only characters
the repository's metadata realistically carries). -/
def toLowerChar (c : Char) : Char :=
  match c with
  | 'A' => 'a' | 'B' => 'b' | 'C' => 'c' | 'D' => 'd' | 'E' => 'e'
  | 'F' => 'f' | 'G' => 'g' | 'H' => 'h' | 'I' => 'i' | 'J' => 'j'
  | 'K' => 'k' | 'L' => 'l' | 'M' => 'm' | 'N' => 'n' | 'O' => 'o'
  | 'P' => 'p' | 'Q' => 'q' | 'R' => 'r' | 'S' => 's' | 'T' => 't'
  | 'U' => 'u' | 'V' => 'v' | 'W' => 'w' | 'X' => 'x' | 'Y' => 'y'
  | 'Z' => 'z'
  | c => c

def lowerList (l : List Char) : List Char := l.map toLowerChar

/-- Replacing a space by a hyphen, the effect of split-on-space followed by
join-with-hyphen on a single character. -/
def hyChar (c : Char) : Char := if c = ' ' then '-' else c

def mapHyphen (l : List Char) : List Char := l.map hyChar

/-- Replace every whitespace run by the single character `ins`; the flag
records whether the previous character was part of a run.  With `ins` a
space this is the JS replace of a whitespace-run regex by one space. -/
def collapseAux (ins : Char) : Bool → List Char → List Char
  | _, [] => []
  | prevWS, c :: t =>
    if isWS c then
      if prevWS then collapseAux ins true t else ins :: collapseAux ins true t
    else c :: collapseAux ins false t

/-- JS trim on a character list: drop whitespace from both ends. -/
def trimList (l : List Char) : List Char :=
  ((l.dropWhile fun c => isWS c).reverse.dropWhile fun c => isWS c).reverse

/-- JS split on a single space: first word plus the remaining words. -/
def splitOnSpace : List Char → List Char × List (List Char)
  | [] => ([], [])
  | c :: t =>
    let p := splitOnSpace t
    if c = ' ' then ([], p.1 :: p.2) else (c :: p.1, p.2)

/-- JS join with a hyphen, applied to a first word and remaining words. -/
def joinHyphen (w : List Char) : List (List Char) → List Char
  | [] => w
  | w2 :: ws => w ++ '-' :: joinHyphen w2 ws

def isPrefixB : List Char → List Char → Bool
  | [], _ => true
  | _ :: _, [] => false
  | a :: as, b :: bs => a = b && isPrefixB as bs

def isInfixB (pat : List Char) : List Char → Bool
  | [] => isPrefixB pat []
  | c :: t => isPrefixB pat (c :: t) || isInfixB pat t

/-- JS string includes, on our character-list model. -/
def containsStr (s pat : String) : Bool := isInfixB pat.data s.data

/-- Number of positions of `l` at which `pat` occurs as a substring. -/
def substrCount (pat : List Char) : List Char → Nat
  | [] => 0
  | c :: t => (if isPrefixB pat (c :: t) then 1 else 0) + substrCount pat t

/-- JS trim. -/
def jsTrim (s : String) : String := ⟨trimList s.data⟩

/-- JS toLowerCase. -/
def jsToLower (s : String) : String := ⟨lowerList s.data⟩

/-- JS template interpolation of a possibly-undefined value: interpolating
the undefined value produces the literal text "undefined". -/
def jsInterp : Option String → String
  | none => "undefined"
  | some s => s

/-- JS `x || d` for a possibly-undefined string `x`: the empty string and
undefined are falsy, so both fall back to `d`. -/
def jsOrElse : Option String → String → String
  | none, d => d
  | some s, d => if s = "" then d else s

/-- index.ts line 27. -/
def REPO_NAME : String := "oddball-code-challenge-repo"

/-- index.ts line 28. -/
def BRANCH_NAME : String := "feature/initial-setup"

/-- index.ts line 205: for a supplied string, trim, replace each
whitespace run by one space, lower-case, split on spaces and join with
hyphens; for an absent string the empty string. -/
def slugify : Option String → String
  | none => ""
  | some s =>
    let p := splitOnSpace (lowerList (collapseAux ' ' false (trimList s.data)))
    ⟨joinHyphen p.1 p.2⟩

/-- index.ts lines 204-206: the generated repository name.  Note that the
last name is only optionally-chained through toLowerCase and then
template-interpolated (so an absent last name interpolates as the text
"undefined"), while only the job title goes through slugify. -/
def uniqueRepoName (timestamp : Nat) (last_name job_title : Option String) : String :=
  REPO_NAME ++ "-" ++ toString timestamp ++ "-"
    ++ jsInterp (last_name.map jsToLower) ++ "-" ++ slugify job_title

/-- Written from the spec sentence describing slug: a slug lower-cases its
argument and replaces every whitespace run with a single hyphen. -/
def specSlug (s : String) : String := ⟨lowerList (collapseAux '-' false s.data)⟩

/- == Equivalence of the source slug pipeline with the spec slug on
trimmed input == -/

theorem joinHyphen_cons (c : Char) (w : List Char) (ws : List (List Char)) :
    joinHyphen (c :: w) ws = c :: joinHyphen w ws := by
  cases ws <;> simp [joinHyphen]

theorem joinHyphen_splitOnSpace (l : List Char) :
    joinHyphen (splitOnSpace l).1 (splitOnSpace l).2 = mapHyphen l := by
  induction l with
  | nil => simp [splitOnSpace, joinHyphen, mapHyphen]
  | cons c t ih =>
    by_cases hc : c = ' '
    · subst hc
      simp [splitOnSpace, joinHyphen, mapHyphen, hyChar] at ih ⊢
      exact ih
    · simp [splitOnSpace, hc, joinHyphen_cons, mapHyphen, hyChar] at ih ⊢
      exact ih

theorem toLowerChar_ne_space {c : Char} (hc : c ≠ ' ') : toLowerChar c ≠ ' ' := by
  unfold toLowerChar
  split <;> simp_all

theorem hyChar_toLowerChar (c : Char) :
    hyChar (toLowerChar c) = toLowerChar (hyChar c) := by
  by_cases hc : c = ' '
  · subst hc; decide
  · have h1 : toLowerChar c ≠ ' ' := toLowerChar_ne_space hc
    simp [hyChar, hc, h1]

theorem mapHyphen_lowerList (l : List Char) :
    mapHyphen (lowerList l) = lowerList (mapHyphen l) := by
  simp only [mapHyphen, lowerList, List.map_map]
  exact List.map_congr_left fun c _ => hyChar_toLowerChar c

theorem hyChar_of_not_ws {c : Char} (h : isWS c = false) : hyChar c = c := by
  have : c ≠ ' ' := by
    intro he; subst he; simp [isWS] at h
  simp [hyChar, this]

theorem mapHyphen_collapseAux (b : Bool) (l : List Char) :
    mapHyphen (collapseAux ' ' b l) = collapseAux '-' b l := by
  induction l generalizing b with
  | nil => simp [collapseAux, mapHyphen]
  | cons c t ih =>
    by_cases hw : isWS c
    · cases b <;>
        simp [collapseAux, hw, mapHyphen, hyChar, ← ih true]
    · simp only [Bool.not_eq_true] at hw
      simp [collapseAux, hw, mapHyphen, hyChar_of_not_ws hw, ← ih false]

theorem lowerList_collapse_hyphen (b : Bool) (l : List Char) :
    mapHyphen (lowerList (collapseAux ' ' b l)) = lowerList (collapseAux '-' b l) := by
  rw [mapHyphen_lowerList, mapHyphen_collapseAux]

/-- The source's slug chain agrees with the spec's description of slug on
the trimmed input. -/
theorem slugify_eq_specSlug_trim (s : String) :
    slugify (some s) = specSlug (jsTrim s) := by
  simp only [slugify, specSlug, jsTrim]
  congr 1
  rw [joinHyphen_splitOnSpace, lowerList_collapse_hyphen]

/- == Generic substring composition lemmas == -/

theorem isInfix_append_right {pat l : List Char} (x : List Char) (h : pat <:+: l) :
    pat <:+: x ++ l := by
  obtain ⟨s, t, rfl⟩ := h
  exact ⟨x ++ s, t, by simp⟩

theorem isInfix_append_left {pat l : List Char} (x : List Char) (h : pat <:+: l) :
    pat <:+: l ++ x := by
  obtain ⟨s, t, rfl⟩ := h
  exact ⟨s, t ++ x, by simp⟩

/-- A suffix of the block on the left of an interpolation point, the
interpolated value, and a prefix of the block on the right together form a
substring of the concatenation. -/
theorem isInfix_glue {a b m₁ m₂ : List Char} (x : List Char)
    (ha : a <:+ m₁) (hb : b <+: m₂) : a ++ (x ++ b) <:+: m₁ ++ (x ++ m₂) := by
  obtain ⟨s, rfl⟩ := ha
  obtain ⟨t, rfl⟩ := hb
  exact ⟨s, t, by simp⟩

/- == The prompt templates (index.ts lines 114-124 and line 423), sliced at
the interpolation points; the slices concatenate to exactly the template
literals of the source. == -/

def promptP1 : String := "You are an expert technical interviewer. Based on the resume below and the job description, generate a coding challenge that tests relevant skills. The challenge should be appropriate for a(n) "

def promptP2 : String := " and then continue with the rest of the problem description. Take 40% of the user's resume and 60% of the job description when creating this challenge.  \n    Add several starter code files for the user to work with.  Make sure to add some bugs in these starter files.  Do not call out in the file where the bug is located.  Keep this a secret. This coding challenge needs to be in text format, styled for a GitHub readme.\n\nResume:\n"

def promptP3 : String := "\n\nJob Description:\n"

def promptP4a : String := "\n\nGenerate a coding challenge with the following structure:\n"

/-- The fixed six-header skeleton demanded of the completion. -/
def sectionHeadersBlock : String := "# Coding Challenge\n## Problem Description\n## Requirements\n## Technical Specifications\n## Evaluation Criteria\n## Submission Instructions"

def promptP4b : String := "\n\nCoding Challenge:\n    \n    *Requirements* \n    - Do not stop until you are done creating the challenge.\n    - You must generate sample code file to use in the challenge.\n    - Be sure to include the name of the user in the challenge prompt using "

def promptP5 : String := " in the Problem Description, if provided.\n    - Be sure to include the "

def promptP6 : String := " in the introduction, if provided.\n    - The challenge should be able to be completed in 90 minutes."

/-- index.ts lines 114-124: the prompt of generateCodingChallenge. -/
def buildPrompt (resumeText jdText : String)
    (difficulty first_name job_title : Option String) : String :=
  promptP1 ++ jsOrElse difficulty "intermediate" ++ promptP2 ++ resumeText ++ promptP3
    ++ jdText ++ promptP4a ++ sectionHeadersBlock ++ promptP4b ++ jsInterp first_name
    ++ promptP5 ++ jsOrElse job_title "" ++ promptP6

def promptV2P1 : String := "You are an expert technical interviewer. Based on the resume below and the job description, generate a coding challenge that tests relevant skills.Take 40% of the user's resume and 60% of the job description when creating this challenge.  Add several starter code files for the user to work with.  Make sure to add some bugs in these starter files.  Do not call out in the file where the bug is located.  Keep this a secret. This coding challenge needs to be in text format, styled for a GitHub readme.\n\nResume:\n"

def promptV2P3 : String := "\n\nCoding Challenge:"

/-- index.ts line 423: the prompt of generateCodingChallengeV2. -/
def buildPromptV2 (resumeText jdText : String) : String :=
  promptV2P1 ++ resumeText ++ promptP3 ++ jdText ++ promptP4a
    ++ sectionHeadersBlock ++ promptV2P3

/-- The six required section headers (title plus five subsections). -/
def sectionHeaders : List String :=
  ["# Coding Challenge", "## Problem Description", "## Requirements",
   "## Technical Specifications", "## Evaluation Criteria", "## Submission Instructions"]

theorem hdrBlock_infix_buildPrompt (r j : String) (d f t : Option String) :
    sectionHeadersBlock.data <:+: (buildPrompt r j d f t).data := by
  unfold buildPrompt
  simp only [String.data_append, List.append_assoc]
  exact isInfix_append_right _ (isInfix_append_right _ (isInfix_append_right _
    (isInfix_append_right _ (isInfix_append_right _ (isInfix_append_right _
    (isInfix_append_right _ (isInfix_append_left _ (List.infix_refl _))))))))

theorem hdrBlock_infix_buildPromptV2 (r j : String) :
    sectionHeadersBlock.data <:+: (buildPromptV2 r j).data := by
  unfold buildPromptV2
  simp only [String.data_append, List.append_assoc]
  exact isInfix_append_right _ (isInfix_append_right _ (isInfix_append_right _
    (isInfix_append_right _ (isInfix_append_right _
    (isInfix_append_left _ (List.infix_refl _))))))

theorem infix_buildPrompt_part1 {pat : List Char} (r j : String) (d f t : Option String)
    (h : pat <:+: promptP1.data) : pat <:+: (buildPrompt r j d f t).data := by
  unfold buildPrompt
  simp only [String.data_append, List.append_assoc]
  exact isInfix_append_left _ h

theorem infix_buildPrompt_part2 {pat : List Char} (r j : String) (d f t : Option String)
    (h : pat <:+: promptP2.data) : pat <:+: (buildPrompt r j d f t).data := by
  unfold buildPrompt
  simp only [String.data_append, List.append_assoc]
  exact isInfix_append_right _ (isInfix_append_right _ (isInfix_append_left _ h))

theorem infix_buildPrompt_part6 {pat : List Char} (r j : String) (d f t : Option String)
    (h : pat <:+: promptP6.data) : pat <:+: (buildPrompt r j d f t).data := by
  unfold buildPrompt
  simp only [String.data_append, List.append_assoc]
  exact isInfix_append_right _ (isInfix_append_right _ (isInfix_append_right _
    (isInfix_append_right _ (isInfix_append_right _ (isInfix_append_right _
    (isInfix_append_right _ (isInfix_append_right _ (isInfix_append_right _
    (isInfix_append_right _ (isInfix_append_right _ (isInfix_append_right _ h)))))))))))

theorem infix_buildPrompt_difficulty {a b : List Char} (r j : String) (d f t : Option String)
    (ha : a <:+ promptP1.data) (hb : b <+: promptP2.data) :
    a ++ ((jsOrElse d "intermediate").data ++ b) <:+: (buildPrompt r j d f t).data := by
  unfold buildPrompt
  simp only [String.data_append, List.append_assoc]
  exact isInfix_glue _ ha (hb.trans (List.prefix_append _ _))

theorem infix_buildPrompt_firstName {a b : List Char} (r j : String) (d f t : Option String)
    (ha : a <:+ promptP4b.data) (hb : b <+: promptP5.data) :
    a ++ ((jsInterp f).data ++ b) <:+: (buildPrompt r j d f t).data := by
  unfold buildPrompt
  simp only [String.data_append, List.append_assoc]
  exact isInfix_append_right _ (isInfix_append_right _ (isInfix_append_right _
    (isInfix_append_right _ (isInfix_append_right _ (isInfix_append_right _
    (isInfix_append_right _ (isInfix_append_right _
    (isInfix_glue _ ha (hb.trans (List.prefix_append _ _))))))))))

theorem infix_buildPrompt_jobTitle {a b : List Char} (r j : String) (d f t : Option String)
    (ha : a <:+ promptP5.data) (hb : b <+: promptP6.data) :
    a ++ ((jsOrElse t "").data ++ b) <:+: (buildPrompt r j d f t).data := by
  unfold buildPrompt
  simp only [String.data_append, List.append_assoc]
  exact isInfix_append_right _ (isInfix_append_right _ (isInfix_append_right _
    (isInfix_append_right _ (isInfix_append_right _ (isInfix_append_right _
    (isInfix_append_right _ (isInfix_append_right _ (isInfix_append_right _
    (isInfix_append_right _ (isInfix_glue _ ha hb))))))))))

/- == Claim C1: repository-name generation == -/

/-- C1 counterexample: at the claim's own example, last name "O Brien" and
job title "Senior  QA Engineer", the generated name keeps the space of the
last name (the code only lower-cases the last name and never slugifies
it), so the name differs from the claimed base-timestamp-slug-slug form. -/
theorem claim1_counterexample :
    uniqueRepoName 1 (some "O Brien") (some "Senior  QA Engineer")
        = "oddball-code-challenge-repo-1-o brien-senior-qa-engineer" ∧
    uniqueRepoName 1 (some "O Brien") (some "Senior  QA Engineer")
        ≠ REPO_NAME ++ "-" ++ toString 1 ++ "-" ++ specSlug "O Brien" ++ "-"
            ++ specSlug "Senior  QA Engineer" := by
  constructor <;> decide

/-- C1 (amended): for a fixed timestamp and supplied metadata the name is
base-timestamp-lowercased lastName-slug jobTitle, where the slug trims its
argument, lower-cases it and replaces every whitespace run with a single
hyphen, but the last name is only lower-cased (its whitespace survives);
at the claim's example the segment after the timestamp is
"o brien-senior-qa-engineer". -/
theorem claim1_repo_name (ts : Nat) (ln jt : String) :
    uniqueRepoName ts (some ln) (some jt)
      = REPO_NAME ++ "-" ++ toString ts ++ "-" ++ jsToLower ln ++ "-"
          ++ specSlug (jsTrim jt) ∧
    uniqueRepoName ts (some "O Brien") (some "Senior  QA Engineer")
      = REPO_NAME ++ "-" ++ toString ts ++ "-" ++ "o brien-senior-qa-engineer" := by
  have key : ∀ l2 j2 : String, uniqueRepoName ts (some l2) (some j2)
      = REPO_NAME ++ "-" ++ toString ts ++ "-" ++ jsToLower l2 ++ "-"
          ++ specSlug (jsTrim j2) := by
    intro l2 j2
    unfold uniqueRepoName
    rw [slugify_eq_specSlug_trim]
    rfl
  refine ⟨key ln jt, ?_⟩
  rw [key "O Brien" "Senior  QA Engineer"]
  have h1 : jsToLower "O Brien" = "o brien" := by decide
  have h2 : specSlug (jsTrim "Senior  QA Engineer") = "senior-qa-engineer" := by decide
  rw [h1, h2]
  have h3 : ("o brien" : String) ++ "-" ++ "senior-qa-engineer"
      = "o brien-senior-qa-engineer" := by decide
  rw [← h3]
  simp only [String.append_assoc]

/- == Claim C2: the six section headers == -/

/-- C2 counterexample: a request whose (non-empty) resume text itself
contains a section header makes that header occur twice in the built
prompt, so the headers do not occur exactly once for every valid
request. -/
theorem claim2_counterexample :
    ("## Requirements" : String) ≠ "" ∧ ("jd text" : String) ≠ "" ∧
    substrCount ("## Requirements").data
      (buildPrompt "## Requirements" "jd text" none none none).data = 2 := by
  refine ⟨by decide, by decide, by decide⟩

/-- C2 (amended): for every request the prompt built by either handler
contains each of the six required section headers verbatim; the headers
occur exactly once only when the interpolated texts do not themselves
contain one, which the pipeline does not guarantee. -/
theorem claim2_headers_present (r j : String) (d f t : Option String)
    (hdr : String) (hmem : hdr ∈ sectionHeaders) :
    hdr.data <:+: (buildPrompt r j d f t).data ∧
    hdr.data <:+: (buildPromptV2 r j).data := by
  have hblk : hdr.data <:+: sectionHeadersBlock.data := by
    fin_cases hmem <;> decide
  exact ⟨hblk.trans (hdrBlock_infix_buildPrompt r j d f t),
    hblk.trans (hdrBlock_infix_buildPromptV2 r j)⟩

theorem claim2_headers_present_witness :
    ("# Coding Challenge").data <:+: (buildPrompt "resume text" "jd text" none none none).data ∧
    ("# Coding Challenge").data <:+: (buildPromptV2 "resume text" "jd text").data :=
  claim2_headers_present "resume text" "jd text" none none none "# Coding Challenge"
    (by decide)

/- == Claim C6: fixed framing and conditional interpolation == -/

/-- C6 counterexample: with no first name supplied (and input texts that
nowhere contain the word), the built prompt still contains the literal
text "undefined" in the first name's place, because the template
interpolates the possibly-undefined field unconditionally. -/
theorem claim6_counterexample :
    isInfixB ("undefined").data (buildPrompt "a" "b" none none none).data = true ∧
    isInfixB ("undefined").data ("a" : String).data = false ∧
    isInfixB ("undefined").data ("b" : String).data = false := by
  refine ⟨by decide, by decide, by decide⟩

/-- C6 (amended): the fixed framing, the 40 percent resume and 60 percent
job-description weighting, the hidden-bugs instruction and the 90-minute
time box are always embedded; the job title is interpolated when supplied
and contributes nothing when absent or empty; but the first name is
interpolated unconditionally, so an absent first name leaves the literal
text "undefined" in the instruction string. -/
theorem claim6_interpolation (r j : String) (d f t : Option String) :
    ("expert technical interviewer").data <:+: (buildPrompt r j d f t).data ∧
    ("Take 40% of the user's resume and 60% of the job description").data
      <:+: (buildPrompt r j d f t).data ∧
    ("Make sure to add some bugs in these starter files.").data
      <:+: (buildPrompt r j d f t).data ∧
    ("Do not call out in the file where the bug is located.").data
      <:+: (buildPrompt r j d f t).data ∧
    ("The challenge should be able to be completed in 90 minutes.").data
      <:+: (buildPrompt r j d f t).data ∧
    (∀ fn : String, f = some fn →
      ("using " ++ fn ++ " in the Problem Description").data
        <:+: (buildPrompt r j d f t).data) ∧
    (f = none →
      ("using undefined in the Problem Description").data
        <:+: (buildPrompt r j d f t).data) ∧
    (∀ jt : String, t = some jt → jt ≠ "" →
      ("include the " ++ jt ++ " in the introduction").data
        <:+: (buildPrompt r j d f t).data) ∧
    ((t = none ∨ t = some "") →
      ("include the  in the introduction").data
        <:+: (buildPrompt r j d f t).data) := by
  have haName : ("using ").data <:+ promptP4b.data := by decide
  have hbName : (" in the Problem Description").data <+: promptP5.data := by decide
  have haTitle : ("include the ").data <:+ promptP5.data := by decide
  have hbTitle : (" in the introduction").data <+: promptP6.data := by decide
  refine ⟨?_, ?_, ?_, ?_, ?_, ?_, ?_, ?_, ?_⟩
  · exact infix_buildPrompt_part1 r j d f t (by decide)
  · exact infix_buildPrompt_part2 r j d f t (by decide)
  · exact infix_buildPrompt_part2 r j d f t (by decide)
  · exact infix_buildPrompt_part2 r j d f t (by decide)
  · exact infix_buildPrompt_part6 r j d f t (by decide)
  · rintro fn rfl
    have h := infix_buildPrompt_firstName r j d (some fn) t haName hbName
    simpa [String.data_append, List.append_assoc, jsInterp] using h
  · rintro rfl
    have h := infix_buildPrompt_firstName r j d none t haName hbName
    have e : ("using undefined in the Problem Description" : String)
        = "using " ++ "undefined" ++ " in the Problem Description" := by decide
    rw [e]
    simpa [String.data_append, List.append_assoc, jsInterp] using h
  · rintro jt rfl hne
    have h := infix_buildPrompt_jobTitle r j d f (some jt) haTitle hbTitle
    simpa [String.data_append, List.append_assoc, jsOrElse, hne] using h
  · intro ht
    have e : ("include the  in the introduction" : String)
        = "include the " ++ "" ++ " in the introduction" := by decide
    rw [e]
    rcases ht with rfl | rfl
    · have h := infix_buildPrompt_jobTitle r j d f none haTitle hbTitle
      simpa [String.data_append, List.append_assoc, jsOrElse] using h
    · have h := infix_buildPrompt_jobTitle r j d f (some "") haTitle hbTitle
      simpa [String.data_append, List.append_assoc, jsOrElse] using h

theorem claim6_interpolation_witness :
    ("using Ada in the Problem Description").data
      <:+: (buildPrompt "r" "j" none (some "Ada") (some "Engineer")).data ∧
    ("include the Engineer in the introduction").data
      <:+: (buildPrompt "r" "j" none (some "Ada") (some "Engineer")).data := by
  constructor
  · have h := (claim6_interpolation "r" "j" none (some "Ada")
      (some "Engineer")).2.2.2.2.2.1 "Ada" rfl
    have e : ("using Ada in the Problem Description" : String)
        = "using " ++ "Ada" ++ " in the Problem Description" := by decide
    rw [e]; exact h
  · have h := (claim6_interpolation "r" "j" none (some "Ada")
      (some "Engineer")).2.2.2.2.2.2.2.1 "Engineer" rfl (by decide)
    have e : ("include the Engineer in the introduction" : String)
        = "include the " ++ "Engineer" ++ " in the introduction" := by decide
    rw [e]; exact h

/- == Claim C10: the difficulty default == -/

/-- C10: the prompt uses the literal difficulty "intermediate" when the
difficulty field is absent or empty, and the supplied value when it is
non-empty. -/
theorem claim10_difficulty_default (r j : String) (f t : Option String) :
    (∀ d : Option String, d = none ∨ d = some "" →
      ("appropriate for a(n) " ++ "intermediate" ++ " and then continue").data
        <:+: (buildPrompt r j d f t).data) ∧
    (∀ s : String, s ≠ "" →
      ("appropriate for a(n) " ++ s ++ " and then continue").data
        <:+: (buildPrompt r j (some s) f t).data) := by
  have ha : ("appropriate for a(n) ").data <:+ promptP1.data := by decide
  have hb : (" and then continue").data <+: promptP2.data := by decide
  constructor
  · rintro d (rfl | rfl)
    · have h := infix_buildPrompt_difficulty r j none f t ha hb
      simpa [String.data_append, List.append_assoc, jsOrElse] using h
    · have h := infix_buildPrompt_difficulty r j (some "") f t ha hb
      simpa [String.data_append, List.append_assoc, jsOrElse] using h
  · intro s hs
    have h := infix_buildPrompt_difficulty r j (some s) f t ha hb
    simpa [String.data_append, List.append_assoc, jsOrElse, hs] using h

theorem claim10_difficulty_default_witness :
    ("appropriate for a(n) " ++ "intermediate" ++ " and then continue").data
      <:+: (buildPrompt "r" "j" none none none).data ∧
    ("appropriate for a(n) " ++ "senior" ++ " and then continue").data
      <:+: (buildPrompt "r" "j" (some "senior") none none).data :=
  ⟨(claim10_difficulty_default "r" "j" none none).1 none (Or.inl rfl),
   (claim10_difficulty_default "r" "j" none none).2 "senior" (by decide)⟩

/- == Multipart extraction (index.ts lines 277-358): the busboy event
stream is modelled as a list of events; processing folds them through the
accumulator exactly as the callbacks do, resolving at the first
finish/close/end event, or at the safety timeout (the end of the list)
with whatever was received. == -/

inductive BusboyEvent
  /-- A completed file part: the concatenation of its data chunks. -/
  | file (fieldname content : String)
  /-- A scalar field part. -/
  | field (name value : String)
  /-- A busboy stream error with its message. -/
  | strErr (msg : String)
  /-- Any of the finish, close and end events, which all invoke the same
  finalize callback. -/
  | finish

def BusboyEvent.isFinish : BusboyEvent → Bool
  | .finish => true
  | _ => false

structure MPState where
  resumeBuffer : Option String := none
  jdBuffer : Option String := none
  unexpectedEnd : Bool := false
  fields : List (String × String) := []

/-- A property of the resolved multipart object as the handler sees it
after destructuring: absent (undefined), a file Buffer (an object, truthy
even when its contents are empty), or a scalar-field string delivered by
the trailing fields spread (falsy exactly when empty). -/
inductive JsVal
  | undefined
  | buf (content : String)
  | str (s : String)
  deriving DecidableEq

/-- JS truthiness of such a property. -/
def JsVal.truthy : JsVal → Bool
  | .undefined => false
  | .buf _ => true
  | .str s => !(s == "")

/-- toString with utf-8 of such a property: the Buffer decodes to its
text, a string returns itself; undefined is never read by the handler
(the falsy check rejects it first). -/
def JsVal.toText : JsVal → String
  | .undefined => ""
  | .buf c => c
  | .str s => s

theorem jsval_truthy_undefined : JsVal.undefined.truthy = false := rfl

theorem jsval_truthy_buf (c : String) : (JsVal.buf c).truthy = true := rfl

theorem jsval_toText_buf (c : String) : (JsVal.buf c).toText = c := rfl

structure MultipartResult where
  resumeBuffer : JsVal
  jdBuffer : JsVal
  rawError : Option String
  fields : List (String × String)

/-- JS object property assignment fields[f] = v: overwrite or append. -/
def setField : List (String × String) → String → String → List (String × String)
  | [], k, v => [(k, v)]
  | (k2, v2) :: rest, k, v =>
    if k2 = k then (k, v) :: rest else (k2, v2) :: setField rest k v

/-- JS object property read (undefined when absent). -/
def getField : List (String × String) → String → Option String
  | [], _ => none
  | (k2, v2) :: rest, k => if k2 = k then some v2 else getField rest k

/-- The merged value of a buffer-carrying property of the resolved
object: the trailing fields spread overrides the named property when a
scalar field of the same name was delivered, otherwise the Buffer (or
undefined) stands. -/
def mergeVal : Option String → Option String → JsVal
  | some v, _ => .str v
  | none, some c => .buf c
  | none, none => .undefined

/-- The finalize closure (index.ts lines 328-337):
resolve with the object holding resumeBuffer, jdBuffer, the rawError
condition, and then the spread of the scalar fields - so a scalar field
named resumeBuffer, jdBuffer or rawError overrides the property of the
same name, the spread coming last. -/
def finalizeMP (st : MPState) : MultipartResult :=
  { resumeBuffer := mergeVal (getField st.fields "resumeBuffer") st.resumeBuffer
    jdBuffer := mergeVal (getField st.fields "jdBuffer") st.jdBuffer
    rawError :=
      match getField st.fields "rawError" with
      | some v => some v
      | none => if st.unexpectedEnd then some "UNEXPECTED_END" else none
    fields := st.fields }

/-- One busboy callback: file parts land in the resume or job-description
buffer by field name, scalar fields are stored, and a stream error whose
message contains "Unexpected end of form" sets the flag (other errors are
only logged). -/
def stepMP (st : MPState) : BusboyEvent → MPState
  | .file fieldname content =>
    if fieldname = "resume" then { st with resumeBuffer := some content }
    else if fieldname = "job_description" then { st with jdBuffer := some content }
    else st
  | .field k v => { st with fields := setField st.fields k v }
  | .strErr msg =>
    if containsStr msg "Unexpected end of form" then { st with unexpectedEnd := true }
    else st
  | .finish => st

def parseMultipartAux : MPState → List BusboyEvent → MultipartResult
  | st, [] => finalizeMP st
  | st, .finish :: _ => finalizeMP st
  | st, e :: rest => parseMultipartAux (stepMP st e) rest

/-- index.ts lines 277-358: the promise parseMultipart resolves (it never
rejects; even the setup catch resolves with a rawError). -/
def parseMultipart (events : List BusboyEvent) : MultipartResult :=
  parseMultipartAux {} events

/- == HTTP responses == -/

inductive RespBody
  /-- The success body: challengeLink and githubRepo, each the value of an
  optional chain in the source and so possibly undefined. -/
  | success (challengeLink githubRepo : Option String)
  /-- A JSON error object with an error string. -/
  | errMsg (error : String)
  /-- An error object with a details string (the 500 branch). -/
  | errDetails (error details : String)
  /-- The missing-files error object with its received flags. -/
  | errReceived (error : String) (resumeReceived jdReceived : Bool)

inductive HttpResponse
  /-- A bodyless send (the 204 pre-flight). -/
  | empty (status : Nat)
  | json (status : Nat) (body : RespBody)

def HttpResponse.statusCode : HttpResponse → Nat
  | .empty s => s
  | .json s _ => s

/- == Repository provisioning (index.ts lines 194-273) == -/

structure RepoInfo where
  repoUrl : String
  branchUrl : String
  devUrl : String

/-- Outcomes of the external git and repository-API operations, one per
call site in initializeGitRepo. -/
structure GitEnv where
  /-- createForAuthenticatedUser: on success the repository html url. -/
  createResult : Except String String := .ok ""
  cloneResult : Except String Unit := .ok ()
  /-- The first addConfig pair (its failure is logged and ignored). -/
  configResult : Except String Unit := .ok ()
  checkoutResult : Except String Unit := .ok ()
  addResult : Except String Unit := .ok ()
  commit1 : Except String Unit := .ok ()
  /-- The addConfig pair re-run inside the identity retry. -/
  configRetryResult : Except String Unit := .ok ()
  commit2 : Except String Unit := .ok ()
  pushResult : Except String Unit := .ok ()

structure GitTrace where
  repoCreated : Bool := false
  /-- The authenticated remote URL handed to clone (index.ts line 214). -/
  cloneRemote : Option String := none
  readmeWritten : Option String := none
  commitAttempts : Nat := 0
  identityRetry : Bool := false

/-- The case-insensitive regex test for identity unknown (index.ts line 245). -/
def identityUnknownTest (msg : String) : Bool :=
  isInfixB ("identity unknown").data (lowerList msg.data)

/-- index.ts lines 194-273: create the remote repository, clone, write the
README, configure identity (failure tolerated), branch, add, commit with
one identity retry, push, and return the three URLs; any propagated
failure rethrows. -/
def initializeGitRepo (cdChallenge githubToken githubUsername : String)
    (last_name job_title : Option String) (timestamp : Nat) (env : GitEnv) :
    Except String RepoInfo × GitTrace :=
  let name := uniqueRepoName timestamp last_name job_title
  match env.createResult with
  | .error e => (.error e, {})
  | .ok htmlUrl =>
    let remoteUrl := "https://" ++ githubUsername ++ ":" ++ githubToken
      ++ "@github.com/" ++ githubUsername ++ "/" ++ name ++ ".git"
    match env.cloneResult with
    | .error e => (.error e, { repoCreated := true, cloneRemote := some remoteUrl })
    | .ok _ =>
      let readme := "# " ++ name ++ "\n\n" ++ cdChallenge
      let tr0 : GitTrace :=
        { repoCreated := true, cloneRemote := some remoteUrl, readmeWritten := some readme }
      match env.checkoutResult with
      | .error e => (.error e, tr0)
      | .ok _ =>
      match env.addResult with
      | .error e => (.error e, tr0)
      | .ok _ =>
      let push := fun (tr : GitTrace) =>
        match env.pushResult with
        | .error e => ((.error e : Except String RepoInfo), tr)
        | .ok _ =>
          (.ok { repoUrl := htmlUrl
                 branchUrl := htmlUrl ++ "/tree/" ++ BRANCH_NAME
                 devUrl := "https://vscode.dev/github/" ++ githubUsername ++ "/"
                   ++ name ++ "/tree/" ++ BRANCH_NAME }, tr)
      match env.commit1 with
      | .ok _ => push { tr0 with commitAttempts := 1 }
      | .error msg =>
        if identityUnknownTest msg then
          match env.configRetryResult with
          | .error e => (.error e, { tr0 with commitAttempts := 1, identityRetry := true })
          | .ok _ =>
            match env.commit2 with
            | .ok _ => push { tr0 with commitAttempts := 2, identityRetry := true }
            | .error e => (.error e, { tr0 with commitAttempts := 2, identityRetry := true })
        else (.error msg, { tr0 with commitAttempts := 1 })

/- == The pipeline orchestrators (index.ts lines 30-192 and 360-492) == -/

inductive CompletionOutcome
  /-- The completion call returned; the first choice's message content. -/
  | success (content : String)
  /-- An axios error with the optional upstream response status. -/
  | axiosErr (status : Option Nat) (message : String)
  /-- A non-axios error. -/
  | otherErr (message : String)

structure PipelineEnv where
  completion : CompletionOutcome := .success ""
  git : GitEnv := {}
  now : Nat := 0
  githubToken : String := ""
  githubUsername : String := ""

structure Trace where
  completionCalled : Bool := false
  promptSent : Option String := none
  provisionerCalled : Bool := false
  git : GitTrace := {}

structure Request where
  method : String
  contentType : Option String
  events : List BusboyEvent

/-- index.ts line 58: contentType includes multipart/form-data with the
optional chain (a missing header is falsy). -/
def ctIsMultipart : Option String → Bool
  | none => false
  | some s => containsStr s "multipart/form-data"

def malformedMsg : String := "Malformed multipart form data (unexpected end of form). Ensure you are sending as multipart/form-data with a proper boundary."

def missingFilesMsg : String := "Both resume and job description files are required."

def emptyFilesMsg : String := "Both files must contain text content."

def methodMsg : String := "Method not allowed. Use POST."

def ctMsg : String := "Content-Type must be multipart/form-data"

def rateLimitMsg : String := "Rate limit exceeded. Try again later."

def serverErrMsg : String := "Unexpected server error while generating challenge."

/-- The early-return request validation shared by both handlers
(index.ts lines 57-112 and 378-421): content type, malformed multipart,
missing buffers, blank-after-trim texts. -/
def bodyChecks (req : Request) : Except HttpResponse (String × String × MultipartResult) :=
  if ctIsMultipart req.contentType = false then .error (.json 400 (.errMsg ctMsg))
  else if (parseMultipart req.events).rawError = some "UNEXPECTED_END" then
    .error (.json 400 (.errMsg malformedMsg))
  else if (parseMultipart req.events).resumeBuffer.truthy = false
      || (parseMultipart req.events).jdBuffer.truthy = false then
    .error (.json 400 (.errReceived missingFilesMsg
      (parseMultipart req.events).resumeBuffer.truthy
      (parseMultipart req.events).jdBuffer.truthy))
  else if jsTrim (parseMultipart req.events).resumeBuffer.toText = ""
      || jsTrim (parseMultipart req.events).jdBuffer.toText = "" then
    .error (.json 400 (.errMsg emptyFilesMsg))
  else .ok ((parseMultipart req.events).resumeBuffer.toText,
    (parseMultipart req.events).jdBuffer.toText, parseMultipart req.events)

/-- index.ts lines 34-49: the OPTIONS pre-flight branch answers 204 with
an empty body before the method check rejects non-POST with 405. -/
def earlyChecks (req : Request) : Except HttpResponse (String × String × MultipartResult) :=
  if req.method = "OPTIONS" then .error (.empty 204)
  else if req.method ≠ "POST" then .error (.json 405 (.errMsg methodMsg))
  else bodyChecks req

/-- index.ts lines 367-370: generateCodingChallengeV2 has no OPTIONS
branch of its own, only the POST check. -/
def earlyChecksV2 (req : Request) : Except HttpResponse (String × String × MultipartResult) :=
  if req.method ≠ "POST" then .error (.json 405 (.errMsg methodMsg))
  else bodyChecks req

/-- index.ts lines 167-184 and 465-482: the axios-error arm of the catch
block. -/
def axiosCatch (status : Option Nat) (message : String) : HttpResponse :=
  if status = some 404 then .json 404 (.errMsg "OpenAI endpoint not found.")
  else if status = some 401 then .json 401 (.errMsg "Invalid OpenAI API key.")
  else if status = some 429 then .json 429 (.errMsg rateLimitMsg)
  else .json 503 (.errMsg ("OpenAI service error: " ++ message))

/-- index.ts lines 30-192: the generateCodingChallenge handler. -/
def generateCodingChallenge (req : Request) (env : PipelineEnv) : HttpResponse × Trace :=
  match earlyChecks req with
  | .error resp => (resp, {})
  | .ok (resumeText, jdText, mp) =>
    let prompt := buildPrompt resumeText jdText (getField mp.fields "difficulty")
      (getField mp.fields "first_name") (getField mp.fields "job_title")
    match env.completion with
    | .axiosErr st msg =>
      (axiosCatch st msg, { completionCalled := true, promptSent := some prompt })
    | .otherErr msg =>
      (.json 500 (.errDetails serverErrMsg msg),
       { completionCalled := true, promptSent := some prompt })
    | .success content =>
      let output := jsTrim content
      let pr := initializeGitRepo output env.githubToken env.githubUsername
        (getField mp.fields "last_name") (getField mp.fields "job_title") env.now env.git
      match pr.1 with
      | .error e =>
        (.json 500 (.errDetails serverErrMsg e),
         { completionCalled := true, promptSent := some prompt,
           provisionerCalled := true, git := pr.2 })
      | .ok info =>
        (.json 200 (.success (some info.devUrl) (some info.repoUrl)),
         { completionCalled := true, promptSent := some prompt,
           provisionerCalled := true, git := pr.2 })

/-- index.ts lines 360-492: the generateCodingChallengeV2 handler (no
metadata fields, the V2 prompt, and no name metadata for the repo). -/
def generateCodingChallengeV2 (req : Request) (env : PipelineEnv) : HttpResponse × Trace :=
  match earlyChecksV2 req with
  | .error resp => (resp, {})
  | .ok (resumeText, jdText, _) =>
    let prompt := buildPromptV2 resumeText jdText
    match env.completion with
    | .axiosErr st msg =>
      (axiosCatch st msg, { completionCalled := true, promptSent := some prompt })
    | .otherErr msg =>
      (.json 500 (.errDetails serverErrMsg msg),
       { completionCalled := true, promptSent := some prompt })
    | .success content =>
      let output := jsTrim content
      let pr := initializeGitRepo output env.githubToken env.githubUsername
        none none env.now env.git
      match pr.1 with
      | .error e =>
        (.json 500 (.errDetails serverErrMsg e),
         { completionCalled := true, promptSent := some prompt,
           provisionerCalled := true, git := pr.2 })
      | .ok info =>
        (.json 200 (.success (some info.devUrl) (some info.repoUrl)),
         { completionCalled := true, promptSent := some prompt,
           provisionerCalled := true, git := pr.2 })

/-- Modelled from the spec: the pre-flight handling the hosting framework
supplies for handlers registered with the cors option enabled (that
framework code is not part of the repository source): a pre-flight OPTIONS
request is answered with status 204 and no body before the wrapped handler
runs. -/
def corsWrapped (handler : Request → PipelineEnv → HttpResponse × Trace)
    (req : Request) (env : PipelineEnv) : HttpResponse × Trace :=
  if req.method = "OPTIONS" then (.empty 204, {}) else handler req env

/- == Claim C3: the commit identity retry == -/

/-- C3: when the first commit fails with a message matching the
identity-unknown pattern, the identity is reconfigured and the commit is
retried exactly once (a second failure propagates); a commit failure not
matching the pattern propagates with no retry. -/
theorem claim3_commit_identity_retry (cd token user : String) (ln jt : Option String)
    (ts : Nat) (env : GitEnv) (url msg : String)
    (hcr : env.createResult = .ok url) (hcl : env.cloneResult = .ok ())
    (hco : env.checkoutResult = .ok ()) (had : env.addResult = .ok ())
    (hc1 : env.commit1 = .error msg) :
    (identityUnknownTest msg = true → env.configRetryResult = .ok () →
      (initializeGitRepo cd token user ln jt ts env).2.identityRetry = true ∧
      (initializeGitRepo cd token user ln jt ts env).2.commitAttempts = 2 ∧
      ∀ e : String, env.commit2 = .error e →
        (initializeGitRepo cd token user ln jt ts env).1 = .error e) ∧
    (identityUnknownTest msg = false →
      (initializeGitRepo cd token user ln jt ts env).2.identityRetry = false ∧
      (initializeGitRepo cd token user ln jt ts env).2.commitAttempts = 1 ∧
      (initializeGitRepo cd token user ln jt ts env).1 = .error msg) := by
  constructor
  · intro hid hcfg
    refine ⟨?_, ?_, ?_⟩
    · cases h2 : env.commit2 with
      | ok u =>
        cases hp : env.pushResult <;>
          simp [initializeGitRepo, hcr, hcl, hco, had, hc1, hid, hcfg, h2, hp]
      | error e2 =>
        simp [initializeGitRepo, hcr, hcl, hco, had, hc1, hid, hcfg, h2]
    · cases h2 : env.commit2 with
      | ok u =>
        cases hp : env.pushResult <;>
          simp [initializeGitRepo, hcr, hcl, hco, had, hc1, hid, hcfg, h2, hp]
      | error e2 =>
        simp [initializeGitRepo, hcr, hcl, hco, had, hc1, hid, hcfg, h2]
    · intro e he
      simp [initializeGitRepo, hcr, hcl, hco, had, hc1, hid, hcfg, he]
  · intro hid
    refine ⟨?_, ?_, ?_⟩ <;>
      simp [initializeGitRepo, hcr, hcl, hco, had, hc1, hid]

/-- A git environment whose first commit fails with an identity-unknown
message and whose retried commit fails too. -/
def gitEnvC3 : GitEnv :=
  { commit1 := .error "fatal: unable to auto-detect email address, Identity unknown"
    commit2 := .error "retry failed" }

theorem claim3_commit_identity_retry_witness :
    (initializeGitRepo "c" "tok" "usr" none none 0 gitEnvC3).2.identityRetry = true ∧
    (initializeGitRepo "c" "tok" "usr" none none 0 gitEnvC3).2.commitAttempts = 2 ∧
    (initializeGitRepo "c" "tok" "usr" none none 0 gitEnvC3).1 = .error "retry failed" := by
  have h := claim3_commit_identity_retry "c" "tok" "usr" none none 0 gitEnvC3 ""
    "fatal: unable to auto-detect email address, Identity unknown" rfl rfl rfl rfl rfl
  exact ⟨(h.1 (by decide) rfl).1, (h.1 (by decide) rfl).2.1,
    (h.1 (by decide) rfl).2.2 "retry failed" rfl⟩

/- == Claim C4: provider rate limiting == -/

/-- C4: when the completion provider responds 429 on a request that
reaches the completion call, the response is 429 with the rate-limit
message (which contains "Rate limit"), and the repository provisioner is
never invoked. -/
theorem claim4_rate_limited (req : Request) (env : PipelineEnv) (msg : String)
    (h429 : env.completion = .axiosErr (some 429) msg)
    (hcalled : (generateCodingChallenge req env).2.completionCalled = true) :
    (generateCodingChallenge req env).1 = .json 429 (.errMsg rateLimitMsg) ∧
    containsStr rateLimitMsg "Rate limit" = true ∧
    (generateCodingChallenge req env).2.provisionerCalled = false := by
  cases hec : earlyChecks req with
  | error resp =>
    have hgen : generateCodingChallenge req env = (resp, {}) := by
      simp [generateCodingChallenge, hec]
    rw [hgen] at hcalled
    simp at hcalled
  | ok trip =>
    obtain ⟨rt, jt2, mp⟩ := trip
    refine ⟨?_, by decide, ?_⟩ <;>
      simp [generateCodingChallenge, hec, h429, axiosCatch]

def validEvents : List BusboyEvent :=
  [.file "resume" "my resume", .field "first_name" "Ada",
   .file "job_description" "the jd", .finish]

def validReq : Request :=
  { method := "POST", contentType := some "multipart/form-data; boundary=x",
    events := validEvents }

def env429 : PipelineEnv := { completion := .axiosErr (some 429) "Too Many Requests" }

theorem claim4_rate_limited_witness :
    (generateCodingChallenge validReq env429).1 = .json 429 (.errMsg rateLimitMsg) ∧
    (generateCodingChallenge validReq env429).2.provisionerCalled = false := by
  have h := claim4_rate_limited validReq env429 "Too Many Requests" rfl (by decide)
  exact ⟨h.1, h.2.2⟩

/- == Claim C5: missing or blank files == -/

/-- Whether the event stream delivered a completed file part of the given
field name. -/
def hasFilePart (events : List BusboyEvent) (name : String) : Bool :=
  events.any fun e =>
    match e with
    | .file n _ => n == name
    | _ => false

/-- A request that carries no resume file part at all, only a scalar
field named resumeBuffer, which the trailing fields spread of the
extractor's resolve turns into the resumeBuffer property the handler
destructures. -/
def maskedResumeReq : Request :=
  { method := "POST", contentType := some "multipart/form-data",
    events := [.field "resumeBuffer" "sneaky resume",
      .file "job_description" "the jd", .finish] }

/-- C5 counterexample: a POST multipart request with no resume file part
is not answered 400 and does invoke the completion client (running to a
200 success), because a scalar field named resumeBuffer masks the missing
file through the fields spread of index.ts lines 331-336. -/
theorem claim5_counterexample :
    hasFilePart maskedResumeReq.events "resume" = false ∧
    (generateCodingChallenge maskedResumeReq {}).2.completionCalled = true ∧
    (generateCodingChallenge maskedResumeReq {}).1.statusCode = 200 := by
  refine ⟨by decide, by decide, by decide⟩

/-- C5 (amended): a POST multipart request whose resolved resumeBuffer or
jdBuffer property is absent (no file part and no same-named scalar-field
override) or is a file buffer whose text is blank after trimming is
answered 400, and neither the completion client nor the repository
provisioner is invoked; a scalar field named resumeBuffer or jdBuffer can
mask a missing file part and defeat the 400. -/
theorem claim5_missing_or_blank (req : Request) (env : PipelineEnv)
    (hm : req.method = "POST") (hct : ctIsMultipart req.contentType = true)
    (hmiss : (parseMultipart req.events).resumeBuffer = .undefined ∨
      (parseMultipart req.events).jdBuffer = .undefined ∨
      (∃ c, (parseMultipart req.events).resumeBuffer = .buf c ∧ jsTrim c = "") ∨
      (∃ c, (parseMultipart req.events).jdBuffer = .buf c ∧ jsTrim c = "")) :
    (generateCodingChallenge req env).1.statusCode = 400 ∧
    (generateCodingChallenge req env).2.completionCalled = false ∧
    (generateCodingChallenge req env).2.provisionerCalled = false := by
  have herr : ∃ b, earlyChecks req = .error (.json 400 b) := by
    unfold earlyChecks bodyChecks
    rw [hm]
    by_cases hue : (parseMultipart req.events).rawError = some "UNEXPECTED_END"
    · exact ⟨.errMsg malformedMsg, by simp [hue, hct]⟩
    · rcases hmiss with h | h | ⟨c, hc, htr⟩ | ⟨c, hc, htr⟩
      · exact ⟨.errReceived missingFilesMsg false
          (parseMultipart req.events).jdBuffer.truthy,
          by simp [hct, hue, h, jsval_truthy_undefined]⟩
      · exact ⟨.errReceived missingFilesMsg
          (parseMultipart req.events).resumeBuffer.truthy false,
          by simp [hct, hue, h, jsval_truthy_undefined]⟩
      · by_cases hjb : (parseMultipart req.events).jdBuffer.truthy = false
        · exact ⟨.errReceived missingFilesMsg true false,
            by simp [hct, hue, hc, hjb, jsval_truthy_buf]⟩
        · exact ⟨.errMsg emptyFilesMsg,
            by simp [hct, hue, hc, hjb, htr, jsval_truthy_buf, jsval_toText_buf]⟩
      · by_cases hrb : (parseMultipart req.events).resumeBuffer.truthy = false
        · exact ⟨.errReceived missingFilesMsg false true,
            by simp [hct, hue, hrb, hc, jsval_truthy_buf]⟩
        · exact ⟨.errMsg emptyFilesMsg,
            by simp [hct, hue, hrb, hc, htr, jsval_truthy_buf, jsval_toText_buf]⟩
  obtain ⟨b, hb⟩ := herr
  refine ⟨?_, ?_, ?_⟩ <;>
    simp [generateCodingChallenge, hb, HttpResponse.statusCode]

def missingJdReq : Request :=
  { method := "POST", contentType := some "multipart/form-data",
    events := [.file "resume" "my resume", .finish] }

theorem claim5_missing_or_blank_witness :
    (generateCodingChallenge missingJdReq {}).1.statusCode = 400 ∧
    (generateCodingChallenge missingJdReq {}).2.completionCalled = false ∧
    (generateCodingChallenge missingJdReq {}).2.provisionerCalled = false :=
  claim5_missing_or_blank missingJdReq {} rfl (by decide)
    (Or.inr (Or.inl (by decide)))

/- == Claim C7: malformed multipart framing == -/

theorem parseMPAux_cons_not_finish (st : MPState) (e : BusboyEvent)
    (rest : List BusboyEvent) (he : e.isFinish = false) :
    parseMultipartAux st (e :: rest) = parseMultipartAux (stepMP st e) rest := by
  cases e with
  | finish => simp [BusboyEvent.isFinish] at he
  | file fieldname content => rfl
  | field k v => rfl
  | strErr m => rfl

/-- The flag set by the error handler survives to the resolved result:
when the accumulated scalar fields carry no rawError override, the
resolved rawError is the UNEXPECTED_END condition. -/
theorem parseMPAux_rawError_of_flag (l : List BusboyEvent) :
    ∀ st : MPState, st.unexpectedEnd = true →
      getField (parseMultipartAux st l).fields "rawError" = none →
      (parseMultipartAux st l).rawError = some "UNEXPECTED_END" := by
  induction l with
  | nil =>
    intro st hst hf
    simp only [parseMultipartAux, finalizeMP] at hf ⊢
    simp [hf, hst]
  | cons e rest ih =>
    intro st hst hf
    cases e with
    | finish =>
      simp only [parseMultipartAux, finalizeMP] at hf ⊢
      simp [hf, hst]
    | file fieldname content =>
      rw [parseMPAux_cons_not_finish st _ rest (by rfl)] at hf ⊢
      refine ih _ ?_ hf
      simp only [stepMP]
      split <;> [skip; split] <;> simpa using hst
    | field k v =>
      rw [parseMPAux_cons_not_finish st _ rest (by rfl)] at hf ⊢
      exact ih _ (by simpa [stepMP] using hst) hf
    | strErr m =>
      rw [parseMPAux_cons_not_finish st _ rest (by rfl)] at hf ⊢
      refine ih _ ?_ hf
      simp only [stepMP]
      split <;> simp [hst]

theorem parseMP_unexpected_end (pre post : List BusboyEvent) (msg : String)
    (hpre : ∀ e ∈ pre, e.isFinish = false)
    (hmsg : containsStr msg "Unexpected end of form" = true)
    (hfld : getField (parseMultipart (pre ++ .strErr msg :: post)).fields
      "rawError" = none) :
    (parseMultipart (pre ++ .strErr msg :: post)).rawError = some "UNEXPECTED_END" := by
  unfold parseMultipart at hfld ⊢
  revert hfld
  suffices h : ∀ st : MPState,
      getField (parseMultipartAux st (pre ++ .strErr msg :: post)).fields
        "rawError" = none →
      (parseMultipartAux st (pre ++ .strErr msg :: post)).rawError
        = some "UNEXPECTED_END" from h {}
  induction pre with
  | nil =>
    intro st hf
    rw [List.nil_append,
      parseMPAux_cons_not_finish st (.strErr msg) post (by rfl)] at hf ⊢
    exact parseMPAux_rawError_of_flag post _ (by simp [stepMP, hmsg]) hf
  | cons e pre2 ih =>
    intro st hf
    rw [List.cons_append,
      parseMPAux_cons_not_finish st e _ (hpre e (by simp))] at hf ⊢
    exact ih (fun e2 hm2 => hpre e2 (by simp [hm2])) _ hf

/-- A malformed body (premature end after both files) that also delivered
a scalar field named rawError: the fields spread overrides the
UNEXPECTED_END condition in the resolved object. -/
def maskedRawErrorReq : Request :=
  { method := "POST", contentType := some "multipart/form-data",
    events := [.field "rawError" "masked", .file "resume" "my resume",
      .file "job_description" "the jd", .strErr "Unexpected end of form"] }

/-- C7 counterexample: the same malformed framing as the claim (a stream
error containing "Unexpected end of form" with no finalize before it)
does not surface as UNEXPECTED_END when a scalar field named rawError was
delivered: the resolved condition is the field's value, the orchestrator
returns no malformed 400, and the pipeline runs to a 200 success. -/
theorem claim7_counterexample :
    (parseMultipart maskedRawErrorReq.events).rawError = some "masked" ∧
    (parseMultipart maskedRawErrorReq.events).rawError ≠ some "UNEXPECTED_END" ∧
    (generateCodingChallenge maskedRawErrorReq {}).1.statusCode = 200 ∧
    (generateCodingChallenge maskedRawErrorReq {}).2.completionCalled = true := by
  refine ⟨by decide, by decide, by decide, by decide⟩

/-- C7 (amended): a busboy stream error naming an unexpected end of form,
arriving before any finalize event, makes the extractor resolve (not
throw) with the distinguished UNEXPECTED_END condition - provided no
scalar field named rawError was delivered, since the fields spread would
override the condition - and the orchestrator maps it to a 400 response
describing malformed multipart form data, before any completion or
provisioning work. -/
theorem claim7_malformed_multipart (req : Request) (env : PipelineEnv)
    (pre post : List BusboyEvent) (msg : String)
    (hm : req.method = "POST") (hct : ctIsMultipart req.contentType = true)
    (hev : req.events = pre ++ .strErr msg :: post)
    (hpre : ∀ e ∈ pre, e.isFinish = false)
    (hmsg : containsStr msg "Unexpected end of form" = true)
    (hfld : getField (parseMultipart req.events).fields "rawError" = none) :
    (parseMultipart req.events).rawError = some "UNEXPECTED_END" ∧
    (generateCodingChallenge req env).1 = .json 400 (.errMsg malformedMsg) ∧
    (generateCodingChallenge req env).2.completionCalled = false ∧
    (generateCodingChallenge req env).2.provisionerCalled = false := by
  have hraw : (parseMultipart req.events).rawError = some "UNEXPECTED_END" := by
    rw [hev] at hfld ⊢
    exact parseMP_unexpected_end pre post msg hpre hmsg hfld
  have hec : earlyChecks req = .error (.json 400 (.errMsg malformedMsg)) := by
    unfold earlyChecks bodyChecks
    rw [hm]
    simp [hct, hraw]
  refine ⟨hraw, ?_, ?_, ?_⟩ <;> simp [generateCodingChallenge, hec]

def malformedReq : Request :=
  { method := "POST", contentType := some "multipart/form-data",
    events := [.file "resume" "x", .strErr "Unexpected end of form"] }

theorem claim7_malformed_multipart_witness :
    (parseMultipart malformedReq.events).rawError = some "UNEXPECTED_END" ∧
    (generateCodingChallenge malformedReq {}).1 = .json 400 (.errMsg malformedMsg) ∧
    (generateCodingChallenge malformedReq {}).2.completionCalled = false ∧
    (generateCodingChallenge malformedReq {}).2.provisionerCalled = false :=
  claim7_malformed_multipart malformedReq {} [.file "resume" "x"] []
    "Unexpected end of form" rfl (by decide) rfl (by decide) (by decide) (by decide)

/- == Claim C8: the method gate == -/

/-- C8: an OPTIONS request is answered 204 with no body before any other
work, and a request that is neither POST nor OPTIONS is answered 405
before any extraction, completion or provisioning work; for the V2
handler the pre-flight is answered by the framework cors wrapper. -/
theorem claim8_method_gate :
    (∀ (req : Request) (env : PipelineEnv), req.method = "OPTIONS" →
      generateCodingChallenge req env = (.empty 204, {})) ∧
    (∀ (req : Request) (env : PipelineEnv),
      req.method ≠ "OPTIONS" → req.method ≠ "POST" →
      generateCodingChallenge req env = (.json 405 (.errMsg methodMsg), {})) ∧
    (∀ (req : Request) (env : PipelineEnv), req.method = "OPTIONS" →
      corsWrapped generateCodingChallengeV2 req env = (.empty 204, {})) ∧
    (∀ (req : Request) (env : PipelineEnv),
      req.method ≠ "OPTIONS" → req.method ≠ "POST" →
      corsWrapped generateCodingChallengeV2 req env
        = (.json 405 (.errMsg methodMsg), {})) := by
  refine ⟨?_, ?_, ?_, ?_⟩
  · intro req env h
    simp [generateCodingChallenge, earlyChecks, h]
  · intro req env h1 h2
    simp [generateCodingChallenge, earlyChecks, h1, h2]
  · intro req env h
    simp [corsWrapped, h]
  · intro req env h1 h2
    simp [corsWrapped, h1, generateCodingChallengeV2, earlyChecksV2, h2]

def optionsReq : Request := { method := "OPTIONS", contentType := none, events := [] }

def deleteReq : Request := { method := "DELETE", contentType := none, events := [] }

theorem claim8_method_gate_witness :
    generateCodingChallenge optionsReq {} = (.empty 204, {}) ∧
    generateCodingChallenge deleteReq {} = (.json 405 (.errMsg methodMsg), {}) ∧
    corsWrapped generateCodingChallengeV2 optionsReq {} = (.empty 204, {}) ∧
    corsWrapped generateCodingChallengeV2 deleteReq {}
      = (.json 405 (.errMsg methodMsg), {}) :=
  ⟨claim8_method_gate.1 optionsReq {} rfl,
   claim8_method_gate.2.1 deleteReq {} (by decide) (by decide),
   claim8_method_gate.2.2.1 optionsReq {} rfl,
   claim8_method_gate.2.2.2 deleteReq {} (by decide) (by decide)⟩

/- == Claim C9: no partial success == -/

/-- A response is the bodyless 204 pre-flight, a success carrying both
URLs, or a JSON error object; in particular never a success carrying
exactly one of the two URLs. -/
def wellFormedResponse : HttpResponse → Prop
  | .empty s => s = 204
  | .json _ b =>
    match b with
    | .success c g => c.isSome = true ∧ g.isSome = true
    | _ => True

theorem bodyChecks_error_wf (req : Request) (r : HttpResponse)
    (h : bodyChecks req = .error r) : wellFormedResponse r := by
  unfold bodyChecks at h
  split at h
  · injection h with h2; subst h2; simp [wellFormedResponse]
  · split at h
    · injection h with h2; subst h2; simp [wellFormedResponse]
    · split at h
      · injection h with h2; subst h2; simp [wellFormedResponse]
      · split at h
        · injection h with h2; subst h2; simp [wellFormedResponse]
        · exact Except.noConfusion h

theorem earlyChecks_error_wf (req : Request) (r : HttpResponse)
    (h : earlyChecks req = .error r) : wellFormedResponse r := by
  unfold earlyChecks at h
  split at h
  · injection h with h2; subst h2; simp [wellFormedResponse]
  · split at h
    · injection h with h2; subst h2; simp [wellFormedResponse]
    · exact bodyChecks_error_wf req r h

theorem earlyChecksV2_error_wf (req : Request) (r : HttpResponse)
    (h : earlyChecksV2 req = .error r) : wellFormedResponse r := by
  unfold earlyChecksV2 at h
  split at h
  · injection h with h2; subst h2; simp [wellFormedResponse]
  · exact bodyChecks_error_wf req r h

theorem axiosCatch_wf (st : Option Nat) (m : String) :
    wellFormedResponse (axiosCatch st m) := by
  unfold axiosCatch
  repeat' split
  all_goals simp [wellFormedResponse]

/-- C9: every response of either handler is the 204 pre-flight, a success
carrying both the challengeLink and the githubRepo URL, or a JSON error
object with an error string; no response carries exactly one URL. -/
theorem claim9_no_partial_success (req : Request) (env : PipelineEnv) :
    wellFormedResponse (generateCodingChallenge req env).1 ∧
    wellFormedResponse (generateCodingChallengeV2 req env).1 := by
  constructor
  · cases hec : earlyChecks req with
    | error r =>
      simpa [generateCodingChallenge, hec] using earlyChecks_error_wf req r hec
    | ok trip =>
      obtain ⟨rt, jt2, mp⟩ := trip
      cases hco : env.completion with
      | axiosErr st m =>
        simpa [generateCodingChallenge, hec, hco] using axiosCatch_wf st m
      | otherErr m =>
        simp [generateCodingChallenge, hec, hco, wellFormedResponse]
      | success content =>
        cases hpr : (initializeGitRepo (jsTrim content) env.githubToken
            env.githubUsername (getField mp.fields "last_name")
            (getField mp.fields "job_title") env.now env.git).1 with
        | error e => simp [generateCodingChallenge, hec, hco, hpr, wellFormedResponse]
        | ok info => simp [generateCodingChallenge, hec, hco, hpr, wellFormedResponse]
  · cases hec : earlyChecksV2 req with
    | error r =>
      simpa [generateCodingChallengeV2, hec] using earlyChecksV2_error_wf req r hec
    | ok trip =>
      obtain ⟨rt, jt2, mp⟩ := trip
      cases hco : env.completion with
      | axiosErr st m =>
        simpa [generateCodingChallengeV2, hec, hco] using axiosCatch_wf st m
      | otherErr m =>
        simp [generateCodingChallengeV2, hec, hco, wellFormedResponse]
      | success content =>
        cases hpr : (initializeGitRepo (jsTrim content) env.githubToken
            env.githubUsername none none env.now env.git).1 with
        | error e => simp [generateCodingChallengeV2, hec, hco, hpr, wellFormedResponse]
        | ok info => simp [generateCodingChallengeV2, hec, hco, hpr, wellFormedResponse]

end Pipeline
